import Mathlib

/-!
# Verification of the `nsinit` container launch sequence

Shallow embedding of `src/pkg/libcontainer/nsinit/exec.go` (package `main`).

The launch sequence `execCommand` coordinates external collaborators:
pty allocation, process start, pid-marker file, cgroup application,
network-interface primitives, terminal raw mode and process wait.  Each
collaborator call is modelled by an outcome recorded in an `Env` (the
environment fixes, up front, how every external call would respond), and
the launch is a pure function from the environment and the container
configuration to its Go result `(int, error)` together with the ordered
trace of the external calls it made.  Go `defer` statements are embedded
by appending the deferred call's events, in LIFO order, on every return
path on which the defer had been registered.
-/

namespace Nsinit

/-- A Go `error` value (non-nil); `Option GoError` embeds nilable errors. -/
structure GoError where
  msg : String
deriving DecidableEq, Repr

/-- Outcome of `command.Wait()` in Go terms: either the child terminated and a
wait status with the given exit code is available (`Wait` returns nil for exit
code 0 and an `*exec.ExitError` otherwise — both land in `exited`), or the wait
itself failed with an error that is not an `*exec.ExitError`. -/
inductive WaitOutcome where
  | exited (status : Nat)
  | waitError (e : GoError)
deriving DecidableEq, Repr

/-- The `libcontainer.Network`: the part of the network configuration read by
`execCommand` (the bridge name). -/
structure Network where
  bridge : String
deriving DecidableEq, Repr

/-- The `libcontainer.Container`: the part of the configuration read by
`execCommand`: whether `container.Cgroups != nil`, and the optional
network configuration (`container.Network`, nil embedded as `none`). -/
structure Container where
  cgroups : Bool
  network : Option Network
deriving DecidableEq, Repr

/-- Outcomes of every external call `execCommand` (and its helpers) may make.
A field `= some e` / `.error e` means that call, if made, fails with `e`. -/
structure Env where
  /-- The `os.OpenFile("/dev/ptmx", ...)` outcome. -/
  openPtmx : Except GoError Unit
  /-- The `system.Ptsname(master)` outcome; on success, the console slave path. -/
  ptsname : Except GoError String
  /-- The `system.Unlockpt(master)` outcome. -/
  unlockpt : Option GoError
  /-- The `command.StdinPipe()` outcome. -/
  stdinPipe : Except GoError Unit
  /-- The `command.Start()` outcome; on success, the child's pid. -/
  start : Except GoError Nat
  /-- The `ioutil.WriteFile(".nspid", ...)` outcome. -/
  writePid : Option GoError
  /-- The `container.Cgroups.Apply(pid)` outcome. -/
  cgroupApply : Option GoError
  /-- Random source: the suffix characters produced by the i-th call to
  `utils.GenerateRandomName` within one launch. -/
  randSuffix : Nat → String
  /-- Failure outcome of the i-th `utils.GenerateRandomName` call. -/
  genNameErr : Nat → Option GoError
  /-- The `network.CreateVethPair(name1, name2)` outcome. -/
  createVeth : String → String → Option GoError
  /-- The `network.SetInterfaceMaster(name, bridge)` outcome. -/
  setMaster : String → String → Option GoError
  /-- The `network.InterfaceUp(name)` outcome. -/
  ifaceUp : String → Option GoError
  /-- Whether the `fmt.Fprint(pipe, name)` write of the handshake payload
  succeeds (its error result is what `sendVethName` receives from `Fprint`). -/
  pipeWriteOk : Bool
  /-- The `network.SetInterfaceInNamespacePid(name, pid)` outcome. -/
  setNsPid : String → Nat → Option GoError
  /-- The `term.GetWinsize(os.Stdin.Fd())` outcome. -/
  getWinsize : Except GoError Unit
  /-- The `term.SetWinsize(master.Fd(), ws)` outcome. -/
  setWinsize : Option GoError
  /-- The `term.SetRawTerminal(os.Stdin.Fd())` outcome. -/
  setRawTerminal : Except GoError Unit
  /-- The `command.Wait()` outcome. -/
  wait : WaitOutcome

/-- One observable external call made by the launch, in program order. -/
inductive Event where
  /-- The `command.Start()` succeeded, child has the given pid. -/
  | processStart (pid : Nat)
  /-- The `ioutil.WriteFile(path, content, mode)` was called; `ok` records
  whether the write succeeded. -/
  | writeFile (path content : String) (mode : Nat) (ok : Bool)
  /-- The `os.Remove(path)` was called. -/
  | removeFile (path : String)
  /-- The `command.Process.Kill()` was called. -/
  | kill
  /-- The `container.Cgroups.Apply(pid)` was called. -/
  | cgroupApply (pid : Nat)
  /-- The `utils.GenerateRandomName(pfx, size)` was called. -/
  | generateName (pfx : String) (size : Nat)
  /-- The `network.CreateVethPair(name1, name2)` was called. -/
  | createVethPair (name1 name2 : String)
  /-- The `network.SetInterfaceMaster(name, bridge)` was called. -/
  | setInterfaceMaster (name bridge : String)
  /-- The `network.InterfaceUp(name)` was called. -/
  | interfaceUp (name : String)
  /-- The `network.SetInterfaceInNamespacePid(name, pid)` was called. -/
  | setInterfaceInNamespacePid (name : String) (pid : Nat)
  /-- The `fmt.Fprint(pipe, payload)` was called on the control channel; `ok`
  records whether the underlying write succeeded. -/
  | pipeWrite (payload : String) (ok : Bool)
  /-- The `inPipe.Close()` was called. -/
  | pipeClose
  /-- The `setupWindow(master)` (terminal attach) was called. -/
  | setupWindow
  /-- The `command.Wait()` was called. -/
  | wait
  /-- The `term.RestoreTerminal(os.Stdin.Fd(), state)` was called. -/
  | restoreTerminal
deriving DecidableEq, Repr

/-- The `createMasterAndConsole`: opens `/dev/ptmx`, retrieves the pts name and
unlocks the pt; returns the console slave path. -/
def createMasterAndConsole (env : Env) : Except GoError String :=
  match env.openPtmx with
  | .error e => .error e
  | .ok _ =>
    match env.ptsname with
    | .error e => .error e
    | .ok console =>
      match env.unlockpt with
      | some e => .error e
      | none => .ok console

/-- The command built by `createCommand`: same binary in the "init" role. -/
structure Cmd where
  args : List String
deriving DecidableEq, Repr

/-- The `createCommand container console args`: invokes `nsinit` with
`-console <path> init` followed by the caller's arguments (namespace clone
flags are kernel state, not observable by the claims). -/
def createCommand (console : String) (args : List String) : Cmd :=
  { args := ["-console", console, "init"] ++ args }

/-- Modelled from the spec: `utils.GenerateRandomName(pfx, size)` is not under
`src/`; per the spec it produces "a fixed short prefix + random suffix, e.g. 4
random characters" and may fail if the random source fails.  `draw` indexes the
call within one launch so that the two draws of one launch are independent
reads of the same random source. -/
def GenerateRandomName (env : Env) (draw : Nat) (pfx : String) (size : Nat) :
    Except GoError String × List Event :=
  match env.genNameErr draw with
  | some e => (.error e, [Event.generateName pfx size])
  | none => (.ok (pfx ++ (env.randSuffix draw).take size), [Event.generateName pfx size])

/-- The `createVethPair`: generates two random names with the fixed prefix "dock"
and 4-character suffixes, then asks the network primitives to create the pair.
Returns the Go named results `(name1, name2, err)` and the call trace. -/
def createVethPair (env : Env) : (String × String × Option GoError) × List Event :=
  match GenerateRandomName env 0 "dock" 4 with
  | (.error e, t1) => (("", "", some e), t1)
  | (.ok name1, t1) =>
    match GenerateRandomName env 1 "dock" 4 with
    | (.error e, t2) => ((name1, "", some e), t1 ++ t2)
    | (.ok name2, t2) =>
      match env.createVeth name1 name2 with
      | some e => ((name1, name2, some e), t1 ++ t2 ++ [Event.createVethPair name1 name2])
      | none => ((name1, name2, none), t1 ++ t2 ++ [Event.createVethPair name1 name2])

/-- The `initializeContainerVeth bridge nspid`: creates the veth pair, sets the
bridge as master of the host side, brings it up, moves the container side into
the namespace of `nspid`, and returns the container side's name. -/
def initializeContainerVeth (env : Env) (bridge : String) (nspid : Nat) :
    Except GoError String × List Event :=
  match createVethPair env with
  | ((_, _, some e), t) => (.error e, t)
  | ((name1, name2, none), t) =>
    match env.setMaster name1 bridge with
    | some e => (.error e, t ++ [Event.setInterfaceMaster name1 bridge])
    | none =>
      match env.ifaceUp name1 with
      | some e => (.error e, t ++ [Event.setInterfaceMaster name1 bridge, Event.interfaceUp name1])
      | none =>
        match env.setNsPid name2 nspid with
        | some e =>
          (.error e, t ++ [Event.setInterfaceMaster name1 bridge, Event.interfaceUp name1,
            Event.setInterfaceInNamespacePid name2 nspid])
        | none =>
          (.ok name2, t ++ [Event.setInterfaceMaster name1 bridge, Event.interfaceUp name1,
            Event.setInterfaceInNamespacePid name2 nspid])

/-- The `sendVethName`: writes the veth name to the child's stdin pipe.
`fmt.Fprint`'s result is discarded by the source, so only the trace records
whether the write succeeded; nothing is returned. -/
def sendVethName (env : Env) (name : String) : List Event :=
  [Event.pipeWrite name env.pipeWriteOk]

/-- The literal `0655` (octal) permission mode passed to `ioutil.WriteFile`. -/
def pidFileMode : Nat := 0o655

/-- The `writePidFile`: writes the child's pid in decimal ASCII (`fmt.Sprint`)
to `.nspid` with mode `0655`. -/
def writePidFile (env : Env) (pid : Nat) : Option GoError × List Event :=
  match env.writePid with
  | some e => (some e, [Event.writeFile ".nspid" (Nat.repr pid) pidFileMode false])
  | none => (none, [Event.writeFile ".nspid" (Nat.repr pid) pidFileMode true])

/-- The `deletePidFile`: removes `.nspid` (run via `defer`). -/
def deletePidFile : List Event := [Event.removeFile ".nspid"]

/-- The `setupWindow`: reads the host window size, propagates it to the pty
master, and switches the host stdin to raw mode. -/
def setupWindow (env : Env) : Except GoError Unit :=
  match env.getWinsize with
  | .error e => .error e
  | .ok _ =>
    match env.setWinsize with
    | some e => .error e
    | none => env.setRawTerminal

/-- Tail of `execCommand` after the control channel has been closed: the two
`go io.Copy` relay tasks are started (concurrent, never consulted by any
return path, hence not traced), then `setupWindow`, `defer RestoreTerminal`,
and `command.Wait()`.  `t` is the trace accumulated so far.  Both `defer`s
(`RestoreTerminal`, registered second, then `deletePidFile`, registered first)
run in LIFO order on the return paths where they are registered. -/
def execTail (env : Env) (t : List Event) : (Int × Option GoError) × List Event :=
  match setupWindow env with
  | .error e => ((-1, some e), t ++ [Event.setupWindow, Event.kill] ++ deletePidFile)
  | .ok _ =>
    match env.wait with
    | .waitError e =>
      ((-1, some e), t ++ [Event.setupWindow, Event.wait, Event.restoreTerminal] ++ deletePidFile)
    | .exited n =>
      (((n : Int), none), t ++ [Event.setupWindow, Event.wait, Event.restoreTerminal] ++ deletePidFile)

/-- Network phase of `execCommand`: if `container.Network != nil`, run
`initializeContainerVeth` (a failure returns its error without killing the
child; only the registered `deletePidFile` defer runs) and send the veth name
into the pipe; in all non-failing cases close the pipe and continue. -/
def execNet (env : Env) (container : Container) (pid : Nat) (t : List Event) :
    (Int × Option GoError) × List Event :=
  match container.network with
  | some net =>
    match initializeContainerVeth env net.bridge pid with
    | (.error e, tn) => ((-1, some e), t ++ tn ++ deletePidFile)
    | (.ok vethName, tn) =>
      execTail env (t ++ tn ++ sendVethName env vethName ++ [Event.pipeClose])
  | none => execTail env (t ++ [Event.pipeClose])

/-- The `execCommand container args`: the full launch sequence of
`src/pkg/libcontainer/nsinit/exec.go`.  Returns the Go result
`(exit code, error)` and the ordered trace of external calls. -/
def execCommand (env : Env) (container : Container) : (Int × Option GoError) × List Event :=
  match createMasterAndConsole env with
  | .error e => ((-1, some e), [])
  | .ok _console =>
    match env.stdinPipe with
    | .error e => ((-1, some e), [])
    | .ok _ =>
      match env.start with
      | .error e => ((-1, some e), [])
      | .ok pid =>
        match writePidFile env pid with
        | (some e, tw) => ((-1, some e), Event.processStart pid :: tw ++ [Event.kill])
        | (none, tw) =>
          if container.cgroups then
            match env.cgroupApply with
            | some e =>
              ((-1, some e), Event.processStart pid :: tw
                ++ [Event.cgroupApply pid, Event.kill] ++ deletePidFile)
            | none =>
              execNet env container pid (Event.processStart pid :: tw ++ [Event.cgroupApply pid])
          else
            execNet env container pid (Event.processStart pid :: tw)

/-! ## Trace predicates and observers -/

/-- Is this event a write on the control channel? -/
def isPipeWriteEv : Event → Bool
  | .pipeWrite _ _ => true
  | _ => false

/-- Is this event a close of the control channel? -/
def isPipeCloseEv : Event → Bool
  | .pipeClose => true
  | _ => false

/-- Is this event the resource-limit (cgroup) application call? -/
def isCgroupApplyEv : Event → Bool
  | .cgroupApply _ => true
  | _ => false

/-- Is this event a network-primitive call (veth creation, bridge attach,
interface up, namespace migration)? -/
def isNetworkEv : Event → Bool
  | .createVethPair _ _ => true
  | .setInterfaceMaster _ _ => true
  | .interfaceUp _ => true
  | .setInterfaceInNamespacePid _ _ => true
  | _ => false

/-- Is this event a call to the random name generator? -/
def isGenerateNameEv : Event → Bool
  | .generateName _ _ => true
  | _ => false

/-- Is this event a kill of the child process? -/
def isKillEv : Event → Bool
  | .kill => true
  | _ => false

/-- The `allBefore p q t`: in trace `t`, every event satisfying `p` occurs at a
strictly earlier position than every event satisfying `q` (equivalently: no
`p`-event sits at or after any `q`-event). -/
def allBefore (p q : Event → Bool) : List Event → Bool
  | [] => true
  | e :: rest =>
    ((!q e) || ((!p e) && rest.all (fun x => !p x))) && allBefore p q rest

/-- Effect of one traced call on whether `.nspid` exists on disk. -/
def pidStep (s : Bool) (e : Event) : Bool :=
  match e with
  | .writeFile path _ _ ok => if path = ".nspid" then ok else s
  | .removeFile path => if path = ".nspid" then false else s
  | _ => s

/-- Whether `.nspid` exists on disk after the trace ran (starting absent). -/
def pidFilePresent (t : List Event) : Bool := t.foldl pidStep false

/-- Forgets the success flag of control-channel writes (used to compare
executions that differ only in whether the discarded `Fprint` error fired). -/
def scrubWriteFlag : Event → Event
  | .pipeWrite s _ => .pipeWrite s true
  | e => e

/-- The first random interface name a launch generates. -/
def genName1 (env : Env) : String := "dock" ++ (env.randSuffix 0).take 4

/-- The second random interface name a launch generates. -/
def genName2 (env : Env) : String := "dock" ++ (env.randSuffix 1).take 4

/-! ## Concrete environments and configurations -/

/-- An environment in which every external call succeeds: pid 42, distinct
random suffixes, child exits 0. -/
def envOk : Env where
  openPtmx := .ok ()
  ptsname := .ok "/dev/pts/5"
  unlockpt := none
  stdinPipe := .ok ()
  start := .ok 42
  writePid := none
  cgroupApply := none
  randSuffix := fun i => if i = 0 then "aaaa" else "bbbb"
  genNameErr := fun _ => none
  createVeth := fun _ _ => none
  setMaster := fun _ _ => none
  ifaceUp := fun _ => none
  pipeWriteOk := true
  setNsPid := fun _ _ => none
  getWinsize := .ok ()
  setWinsize := none
  setRawTerminal := .ok ()
  wait := .exited 0

/-- Configuration with both resource limits and networking. -/
def containerBoth : Container := { cgroups := true, network := some { bridge := "docker0" } }

/-- Configuration with networking only. -/
def containerNetOnly : Container := { cgroups := false, network := some { bridge := "docker0" } }

/-- Configuration with neither resource limits nor networking. -/
def containerPlain : Container := { cgroups := false, network := none }

/-- Environment in which attaching the host-side interface to the bridge
fails and everything else succeeds. -/
def envBridgeFail : Env :=
  { envOk with setMaster := fun _ _ => some { msg := "bridge attach failed" } }

/-- Environment in which the network primitives report a name collision
("exists") on veth pair creation. -/
def envCollide : Env :=
  { envOk with createVeth := fun _ _ => some { msg := "file exists" } }

/-- Environment in which both random draws return the same suffix. -/
def envSameSuffix : Env :=
  { envOk with randSuffix := fun _ => "abcd" }

/-- Environment in which the cgroup application fails. -/
def envCgroupFail : Env :=
  { envOk with cgroupApply := some { msg := "cgroup apply failed" } }

/-- Environment in which writing the pid marker fails. -/
def envPidFail : Env :=
  { envOk with writePid := some { msg := "pid write failed" } }

/-- Environment in which the child exits with status 17. -/
def envExit17 : Env :=
  { envOk with wait := .exited 17 }

/-! ## Helper lemmas -/

theorem allBefore_of_no_q {p q : Event → Bool} {t : List Event}
    (h : ∀ e ∈ t, q e = false) : allBefore p q t = true := by
  induction t with
  | nil => rfl
  | cons e rest ih =>
    have he : q e = false := h e (List.mem_cons_self e rest)
    simp only [allBefore, he, Bool.not_false, Bool.true_or, Bool.true_and]
    exact ih fun x hx => h x (List.mem_cons_of_mem e hx)

theorem allBefore_of_no_p {p q : Event → Bool} {t : List Event}
    (h : ∀ e ∈ t, p e = false) : allBefore p q t = true := by
  induction t with
  | nil => rfl
  | cons e rest ih =>
    have he : p e = false := h e (List.mem_cons_self e rest)
    have hrest : rest.all (fun x => !p x) = true := by
      simp only [List.all_eq_true]
      intro x hx
      simp [h x (List.mem_cons_of_mem e hx)]
    simp only [allBefore, he, Bool.not_false, Bool.true_and, hrest, Bool.and_true, Bool.or_true,
      Bool.true_and]
    exact ih fun x hx => h x (List.mem_cons_of_mem e hx)

theorem allBefore_split {p q : Event → Bool} {t1 t2 : List Event}
    (h1 : ∀ e ∈ t1, q e = false) (h2 : ∀ e ∈ t2, p e = false) :
    allBefore p q (t1 ++ t2) = true := by
  induction t1 with
  | nil => simpa using allBefore_of_no_p h2
  | cons e rest ih =>
    have he : q e = false := h1 e (List.mem_cons_self e rest)
    simp only [List.cons_append, allBefore, he, Bool.not_false, Bool.true_or, Bool.true_and]
    exact ih fun x hx => h1 x (List.mem_cons_of_mem e hx)

theorem createVethPair_cases (env : Env) :
    (∃ e, env.genNameErr 0 = some e ∧
      createVethPair env = (("", "", some e), [Event.generateName "dock" 4]))
  ∨ (∃ e, env.genNameErr 0 = none ∧ env.genNameErr 1 = some e ∧
      createVethPair env = ((genName1 env, "", some e),
        [Event.generateName "dock" 4, Event.generateName "dock" 4]))
  ∨ (env.genNameErr 0 = none ∧ env.genNameErr 1 = none ∧
      createVethPair env =
        ((genName1 env, genName2 env, env.createVeth (genName1 env) (genName2 env)),
          [Event.generateName "dock" 4, Event.generateName "dock" 4,
            Event.createVethPair (genName1 env) (genName2 env)])) := by
  cases h0 : env.genNameErr 0 with
  | some e => exact Or.inl ⟨e, rfl, by simp [createVethPair, GenerateRandomName, h0]⟩
  | none =>
    cases h1 : env.genNameErr 1 with
    | some e =>
      exact Or.inr (Or.inl ⟨e, rfl, rfl,
        by simp [createVethPair, GenerateRandomName, h0, h1, genName1]⟩)
    | none =>
      refine Or.inr (Or.inr ⟨rfl, rfl, ?_⟩)
      cases h2 : env.createVeth (genName1 env) (genName2 env) <;>
        simp_all [createVethPair, GenerateRandomName, genName1, genName2]

theorem initializeContainerVeth_all (env : Env) (bridge : String) (pid : Nat) :
    (initializeContainerVeth env bridge pid).2.all
      (fun e => isGenerateNameEv e || isNetworkEv e) = true := by
  rcases createVethPair_cases env with ⟨e, h0, hcv⟩ | ⟨e, h0, h1, hcv⟩ | ⟨h0, h1, hcv⟩
  · simp [initializeContainerVeth, hcv, isGenerateNameEv]
  · simp [initializeContainerVeth, hcv, isGenerateNameEv]
  · cases h2 : env.createVeth (genName1 env) (genName2 env) with
    | some e =>
      simp [initializeContainerVeth, hcv, h2, isGenerateNameEv, isNetworkEv]
    | none =>
      cases h3 : env.setMaster (genName1 env) bridge with
      | some e => simp [initializeContainerVeth, hcv, h2, h3, isGenerateNameEv, isNetworkEv]
      | none =>
        cases h4 : env.ifaceUp (genName1 env) with
        | some e =>
          simp [initializeContainerVeth, hcv, h2, h3, h4, isGenerateNameEv, isNetworkEv]
        | none =>
          cases h5 : env.setNsPid (genName2 env) pid with
          | some e =>
            simp [initializeContainerVeth, hcv, h2, h3, h4, h5, isGenerateNameEv, isNetworkEv]
          | none =>
            simp [initializeContainerVeth, hcv, h2, h3, h4, h5, isGenerateNameEv, isNetworkEv]

theorem netphase_event {env : Env} {bridge : String} {pid : Nat} {e : Event}
    (he : e ∈ (initializeContainerVeth env bridge pid).2) :
    isGenerateNameEv e = true ∨ isNetworkEv e = true := by
  have h := List.all_eq_true.mp (initializeContainerVeth_all env bridge pid) e he
  simpa using h

theorem execTail_cases (env : Env) (t : List Event) :
    (∃ e, setupWindow env = .error e ∧
      execTail env t = ((-1, some e),
        t ++ [Event.setupWindow, Event.kill, Event.removeFile ".nspid"]))
  ∨ (∃ e, setupWindow env = .ok () ∧ env.wait = .waitError e ∧
      execTail env t = ((-1, some e),
        t ++ [Event.setupWindow, Event.wait, Event.restoreTerminal, Event.removeFile ".nspid"]))
  ∨ (∃ n, setupWindow env = .ok () ∧ env.wait = .exited n ∧
      execTail env t = (((n : Int), none),
        t ++ [Event.setupWindow, Event.wait, Event.restoreTerminal,
          Event.removeFile ".nspid"])) := by
  cases hsw : setupWindow env with
  | error e => exact Or.inl ⟨e, rfl, by simp [execTail, hsw, deletePidFile]⟩
  | ok u =>
    cases u
    cases hw : env.wait with
    | waitError e =>
      exact Or.inr (Or.inl ⟨e, rfl, rfl, by simp [execTail, hsw, hw, deletePidFile]⟩)
    | exited n =>
      exact Or.inr (Or.inr ⟨n, rfl, rfl, by simp [execTail, hsw, hw, deletePidFile]⟩)

theorem execNet_decomp (env : Env) (c : Container) (pid : Nat) (t : List Event) :
    ∃ u, (execNet env c pid t).2 = t ++ u ++ [Event.removeFile ".nspid"] := by
  cases hn : c.network with
  | none =>
    rcases execTail_cases env (t ++ [Event.pipeClose]) with ⟨e, hsw, hq⟩ | ⟨e, hsw, hw, hq⟩ |
      ⟨n, hsw, hw, hq⟩
    · exact ⟨[Event.pipeClose, Event.setupWindow, Event.kill], by
        simp only [execNet, hn]; rw [hq]; simp⟩
    · exact ⟨[Event.pipeClose, Event.setupWindow, Event.wait, Event.restoreTerminal], by
        simp only [execNet, hn]; rw [hq]; simp⟩
    · exact ⟨[Event.pipeClose, Event.setupWindow, Event.wait, Event.restoreTerminal], by
        simp only [execNet, hn]; rw [hq]; simp⟩
  | some nc =>
    rcases hi : initializeContainerVeth env nc.bridge pid with ⟨res, tn⟩
    cases res with
    | error e =>
      refine ⟨tn, ?_⟩
      simp [execNet, hn, hi, deletePidFile]
    | ok name =>
      rcases execTail_cases env (t ++ tn ++ sendVethName env name ++ [Event.pipeClose]) with
        ⟨e, hsw, hq⟩ | ⟨e, hsw, hw, hq⟩ | ⟨n, hsw, hw, hq⟩
      · exact ⟨tn ++ sendVethName env name ++ [Event.pipeClose, Event.setupWindow, Event.kill], by
          simp only [execNet, hn, hi]; rw [hq]; simp⟩
      · exact ⟨tn ++ sendVethName env name
            ++ [Event.pipeClose, Event.setupWindow, Event.wait, Event.restoreTerminal], by
          simp only [execNet, hn, hi]; rw [hq]; simp⟩
      · exact ⟨tn ++ sendVethName env name
            ++ [Event.pipeClose, Event.setupWindow, Event.wait, Event.restoreTerminal], by
          simp only [execNet, hn, hi]; rw [hq]; simp⟩

theorem execNet_fst_cases (env : Env) (c : Container) (pid : Nat) (t : List Event) :
    (∃ e, (execNet env c pid t).1 = (-1, some e))
  ∨ (∃ n, env.wait = .exited n ∧ (execNet env c pid t).1 = ((n : Int), none)) := by
  cases hn : c.network with
  | none =>
    rcases execTail_cases env (t ++ [Event.pipeClose]) with ⟨e, hsw, hq⟩ | ⟨e, hsw, hw, hq⟩ |
      ⟨n, hsw, hw, hq⟩
    · exact Or.inl ⟨e, by simp only [execNet, hn]; rw [hq]⟩
    · exact Or.inl ⟨e, by simp only [execNet, hn]; rw [hq]⟩
    · exact Or.inr ⟨n, hw, by simp only [execNet, hn]; rw [hq]⟩
  | some nc =>
    rcases hi : initializeContainerVeth env nc.bridge pid with ⟨res, tn⟩
    cases res with
    | error e => exact Or.inl ⟨e, by simp [execNet, hn, hi]⟩
    | ok name =>
      rcases execTail_cases env (t ++ tn ++ sendVethName env name ++ [Event.pipeClose]) with
        ⟨e, hsw, hq⟩ | ⟨e, hsw, hw, hq⟩ | ⟨n, hsw, hw, hq⟩
      · exact Or.inl ⟨e, by simp only [execNet, hn, hi]; rw [hq]⟩
      · exact Or.inl ⟨e, by simp only [execNet, hn, hi]; rw [hq]⟩
      · exact Or.inr ⟨n, hw, by simp only [execNet, hn, hi]; rw [hq]⟩

theorem execCommand_console_err {env : Env} {c : Container} {e : GoError}
    (hm : createMasterAndConsole env = .error e) :
    execCommand env c = ((-1, some e), []) := by
  simp [execCommand, hm]

theorem execCommand_pipe_err {env : Env} {c : Container} {console : String} {e : GoError}
    (hm : createMasterAndConsole env = .ok console) (hp : env.stdinPipe = .error e) :
    execCommand env c = ((-1, some e), []) := by
  simp [execCommand, hm, hp]

theorem execCommand_start_err {env : Env} {c : Container} {console : String} {e : GoError}
    (hm : createMasterAndConsole env = .ok console) (hp : env.stdinPipe = .ok ())
    (hs : env.start = .error e) :
    execCommand env c = ((-1, some e), []) := by
  simp [execCommand, hm, hp, hs]

theorem execCommand_pidwrite_err {env : Env} {c : Container} {console : String} {pid : Nat}
    {e : GoError} (hm : createMasterAndConsole env = .ok console) (hp : env.stdinPipe = .ok ())
    (hs : env.start = .ok pid) (hw : env.writePid = some e) :
    execCommand env c = ((-1, some e),
      [Event.processStart pid, Event.writeFile ".nspid" (Nat.repr pid) pidFileMode false,
        Event.kill]) := by
  simp [execCommand, hm, hp, hs, writePidFile, hw]

theorem execCommand_cgroup_err {env : Env} {c : Container} {console : String} {pid : Nat}
    {e : GoError} (hm : createMasterAndConsole env = .ok console) (hp : env.stdinPipe = .ok ())
    (hs : env.start = .ok pid) (hw : env.writePid = none) (hcg : c.cgroups = true)
    (ha : env.cgroupApply = some e) :
    execCommand env c = ((-1, some e),
      [Event.processStart pid, Event.writeFile ".nspid" (Nat.repr pid) pidFileMode true,
        Event.cgroupApply pid, Event.kill, Event.removeFile ".nspid"]) := by
  simp [execCommand, hm, hp, hs, writePidFile, hw, hcg, ha, deletePidFile]

theorem execCommand_cg_net {env : Env} {c : Container} {console : String} {pid : Nat}
    (hm : createMasterAndConsole env = .ok console) (hp : env.stdinPipe = .ok ())
    (hs : env.start = .ok pid) (hw : env.writePid = none) (hcg : c.cgroups = true)
    (ha : env.cgroupApply = none) :
    execCommand env c = execNet env c pid
      [Event.processStart pid, Event.writeFile ".nspid" (Nat.repr pid) pidFileMode true,
        Event.cgroupApply pid] := by
  simp [execCommand, hm, hp, hs, writePidFile, hw, hcg, ha]

theorem execCommand_nocg_net {env : Env} {c : Container} {console : String} {pid : Nat}
    (hm : createMasterAndConsole env = .ok console) (hp : env.stdinPipe = .ok ())
    (hs : env.start = .ok pid) (hw : env.writePid = none) (hcg : c.cgroups = false) :
    execCommand env c = execNet env c pid
      [Event.processStart pid, Event.writeFile ".nspid" (Nat.repr pid) pidFileMode true] := by
  simp [execCommand, hm, hp, hs, writePidFile, hw, hcg]

theorem netphase_props {e : Event} (h : isGenerateNameEv e = true ∨ isNetworkEv e = true) :
    isCgroupApplyEv e = false ∧ isPipeWriteEv e = false ∧ isPipeCloseEv e = false
    ∧ isKillEv e = false ∧ e ≠ Event.kill ∧ e ≠ Event.pipeClose := by
  cases e <;>
    simp_all [isGenerateNameEv, isNetworkEv, isCgroupApplyEv, isPipeWriteEv, isPipeCloseEv,
      isKillEv]

theorem pidFilePresent_concat_remove (t : List Event) :
    pidFilePresent (t ++ [Event.removeFile ".nspid"]) = false := by
  simp [pidFilePresent, List.foldl_append, pidStep]

theorem execNet_no_cg (env : Env) (c : Container) (pid : Nat) (t : List Event) :
    ∃ s, (execNet env c pid t).2 = t ++ s ∧ ∀ e ∈ s, isCgroupApplyEv e = false := by
  cases hn : c.network with
  | none =>
    rcases execTail_cases env (t ++ [Event.pipeClose]) with ⟨e, hsw, hq⟩ | ⟨e, hsw, hw, hq⟩ |
      ⟨n, hsw, hw, hq⟩
    · refine ⟨[Event.pipeClose, Event.setupWindow, Event.kill, Event.removeFile ".nspid"],
        by simp only [execNet, hn]; rw [hq]; simp, ?_⟩
      intro e he
      simp only [List.mem_cons, List.not_mem_nil, or_false] at he
      rcases he with rfl | rfl | rfl | rfl <;> rfl
    · refine ⟨[Event.pipeClose, Event.setupWindow, Event.wait, Event.restoreTerminal,
        Event.removeFile ".nspid"], by simp only [execNet, hn]; rw [hq]; simp, ?_⟩
      intro e he
      simp only [List.mem_cons, List.not_mem_nil, or_false] at he
      rcases he with rfl | rfl | rfl | rfl | rfl <;> rfl
    · refine ⟨[Event.pipeClose, Event.setupWindow, Event.wait, Event.restoreTerminal,
        Event.removeFile ".nspid"], by simp only [execNet, hn]; rw [hq]; simp, ?_⟩
      intro e he
      simp only [List.mem_cons, List.not_mem_nil, or_false] at he
      rcases he with rfl | rfl | rfl | rfl | rfl <;> rfl
  | some nc =>
    rcases hi : initializeContainerVeth env nc.bridge pid with ⟨res, tn⟩
    have htn : ∀ e ∈ tn, isCgroupApplyEv e = false := by
      intro e he
      have hmem : e ∈ (initializeContainerVeth env nc.bridge pid).2 := by rw [hi]; exact he
      exact (netphase_props (netphase_event hmem)).1
    cases res with
    | error e0 =>
      refine ⟨tn ++ [Event.removeFile ".nspid"], by simp [execNet, hn, hi, deletePidFile], ?_⟩
      intro e he
      rcases List.mem_append.mp he with h | h
      · exact htn e h
      · simp only [List.mem_cons, List.not_mem_nil, or_false] at h
        subst h
        rfl
    | ok name =>
      rcases execTail_cases env (t ++ tn ++ sendVethName env name ++ [Event.pipeClose]) with
        ⟨e, hsw, hq⟩ | ⟨e, hsw, hw, hq⟩ | ⟨n, hsw, hw, hq⟩
      · refine ⟨tn ++ sendVethName env name ++ [Event.pipeClose, Event.setupWindow, Event.kill,
          Event.removeFile ".nspid"], by simp only [execNet, hn, hi]; rw [hq]; simp, ?_⟩
        intro e he
        rcases List.mem_append.mp he with h | h
        · rcases List.mem_append.mp h with h2 | h2
          · exact htn e h2
          · simp only [sendVethName, List.mem_cons, List.not_mem_nil, or_false] at h2
            subst h2
            rfl
        · simp only [List.mem_cons, List.not_mem_nil, or_false] at h
          rcases h with rfl | rfl | rfl | rfl <;> rfl
      · refine ⟨tn ++ sendVethName env name ++ [Event.pipeClose, Event.setupWindow, Event.wait,
          Event.restoreTerminal, Event.removeFile ".nspid"],
          by simp only [execNet, hn, hi]; rw [hq]; simp, ?_⟩
        intro e he
        rcases List.mem_append.mp he with h | h
        · rcases List.mem_append.mp h with h2 | h2
          · exact htn e h2
          · simp only [sendVethName, List.mem_cons, List.not_mem_nil, or_false] at h2
            subst h2
            rfl
        · simp only [List.mem_cons, List.not_mem_nil, or_false] at h
          rcases h with rfl | rfl | rfl | rfl | rfl <;> rfl
      · refine ⟨tn ++ sendVethName env name ++ [Event.pipeClose, Event.setupWindow, Event.wait,
          Event.restoreTerminal, Event.removeFile ".nspid"],
          by simp only [execNet, hn, hi]; rw [hq]; simp, ?_⟩
        intro e he
        rcases List.mem_append.mp he with h | h
        · rcases List.mem_append.mp h with h2 | h2
          · exact htn e h2
          · simp only [sendVethName, List.mem_cons, List.not_mem_nil, or_false] at h2
            subst h2
            rfl
        · simp only [List.mem_cons, List.not_mem_nil, or_false] at h
          rcases h with rfl | rfl | rfl | rfl | rfl <;> rfl

/-! ## Claim theorems -/

/-- C5: if the resource-limit application reports failure, the launch kills
the child, returns that non-nil error, and the `.nspid` pid marker is absent
from disk after the launch returns. -/
theorem c5_cgroup_failure_kills_and_cleans {env : Env} {c : Container} {console : String}
    {pid : Nat} {e : GoError}
    (hm : createMasterAndConsole env = .ok console) (hp : env.stdinPipe = .ok ())
    (hs : env.start = .ok pid) (hw : env.writePid = none)
    (hcg : c.cgroups = true) (ha : env.cgroupApply = some e) :
    (execCommand env c).1 = (-1, some e)
    ∧ Event.kill ∈ (execCommand env c).2
    ∧ pidFilePresent (execCommand env c).2 = false := by
  rw [execCommand_cgroup_err hm hp hs hw hcg ha]
  refine ⟨rfl, by simp, ?_⟩
  simp [pidFilePresent, pidStep]

theorem c5_cgroup_failure_kills_and_cleans_witness :
    (execCommand envCgroupFail containerBoth).1 = (-1, some { msg := "cgroup apply failed" })
    ∧ Event.kill ∈ (execCommand envCgroupFail containerBoth).2
    ∧ pidFilePresent (execCommand envCgroupFail containerBoth).2 = false :=
  @c5_cgroup_failure_kills_and_cleans envCgroupFail containerBoth "/dev/pts/5" 42
    { msg := "cgroup apply failed" } rfl rfl rfl rfl rfl rfl

/-- C2: for every configuration with both resource limits and networking, the
resource-limit application to the child's pid occurs, and it occurs strictly
before every network-primitive call (veth creation, bridge attach, interface
up, namespace migration) in the launch's trace. -/
theorem c2_cgroup_before_network {env : Env} {c : Container} {nc : Network} {console : String}
    {pid : Nat}
    (hm : createMasterAndConsole env = .ok console) (hp : env.stdinPipe = .ok ())
    (hs : env.start = .ok pid) (hw : env.writePid = none)
    (hcg : c.cgroups = true) (hn : c.network = some nc) :
    Event.cgroupApply pid ∈ (execCommand env c).2
    ∧ allBefore isCgroupApplyEv isNetworkEv (execCommand env c).2 = true := by
  cases ha : env.cgroupApply with
  | some e =>
    rw [execCommand_cgroup_err hm hp hs hw hcg ha]
    refine ⟨by simp, ?_⟩
    apply allBefore_of_no_q
    intro x hx
    simp only [List.mem_cons, List.not_mem_nil, or_false] at hx
    rcases hx with rfl | rfl | rfl | rfl | rfl <;> rfl
  | none =>
    rw [execCommand_cg_net hm hp hs hw hcg ha]
    obtain ⟨s, hseq, hpure⟩ := execNet_no_cg env c pid
      [Event.processStart pid, Event.writeFile ".nspid" (Nat.repr pid) pidFileMode true,
        Event.cgroupApply pid]
    rw [hseq]
    constructor
    · simp
    · apply allBefore_split
      · intro x hx
        simp only [List.mem_cons, List.not_mem_nil, or_false] at hx
        rcases hx with rfl | rfl | rfl <;> rfl
      · exact hpure

theorem c2_cgroup_before_network_witness :
    Event.cgroupApply 42 ∈ (execCommand envOk containerBoth).2
    ∧ allBefore isCgroupApplyEv isNetworkEv (execCommand envOk containerBoth).2 = true :=
  @c2_cgroup_before_network envOk containerBoth { bridge := "docker0" } "/dev/pts/5" 42
    rfl rfl rfl rfl rfl rfl

theorem execCommand_result_cases (env : Env) (c : Container) :
    (∃ e, (execCommand env c).1 = (-1, some e))
  ∨ (∃ n, env.wait = .exited n ∧ (execCommand env c).1 = ((n : Int), none)) := by
  cases hm : createMasterAndConsole env with
  | error e => exact Or.inl ⟨e, by rw [execCommand_console_err hm]⟩
  | ok console =>
    cases hp : env.stdinPipe with
    | error e => exact Or.inl ⟨e, by rw [execCommand_pipe_err hm hp]⟩
    | ok u =>
      cases u
      cases hs : env.start with
      | error e => exact Or.inl ⟨e, by rw [execCommand_start_err hm hp hs]⟩
      | ok pid =>
        cases hw : env.writePid with
        | some e => exact Or.inl ⟨e, by rw [execCommand_pidwrite_err hm hp hs hw]⟩
        | none =>
          cases hcg : c.cgroups with
          | false =>
            rw [execCommand_nocg_net hm hp hs hw hcg]
            exact execNet_fst_cases env c pid _
          | true =>
            cases ha : env.cgroupApply with
            | some e => exact Or.inl ⟨e, by rw [execCommand_cgroup_err hm hp hs hw hcg ha]⟩
            | none =>
              rw [execCommand_cg_net hm hp hs hw hcg ha]
              exact execNet_fst_cases env c pid _

/-- C7: after a successful process start the pid marker is written to `.nspid`,
holding the child's pid in decimal ASCII with mode `0655` (a mode whose bits
allow owner read and write and group/other read), written immediately after the
start and before any other step; on every exit path from that point the marker
is removed as the final action, so it is absent after the launch returns; and
if the marker write fails the child is killed and the error is returned. -/
theorem c7_pid_marker_lifecycle {env : Env} {c : Container} {console : String} {pid : Nat}
    (hm : createMasterAndConsole env = .ok console) (hp : env.stdinPipe = .ok ())
    (hs : env.start = .ok pid) :
    (env.writePid = none →
      (∃ u, (execCommand env c).2 =
        (Event.processStart pid
          :: Event.writeFile ".nspid" (Nat.repr pid) pidFileMode true :: u)
          ++ [Event.removeFile ".nspid"])
      ∧ pidFilePresent (execCommand env c).2 = false)
    ∧ (∀ e, env.writePid = some e →
        (execCommand env c).1 = (-1, some e) ∧ Event.kill ∈ (execCommand env c).2)
    ∧ pidFileMode = 0o655
    ∧ pidFileMode.testBit 8 = true ∧ pidFileMode.testBit 7 = true
    ∧ pidFileMode.testBit 5 = true ∧ pidFileMode.testBit 2 = true := by
  refine ⟨?_, ?_, rfl, by decide, by decide, by decide, by decide⟩
  · intro hw
    have hdec : ∃ u, (execCommand env c).2 =
        (Event.processStart pid
          :: Event.writeFile ".nspid" (Nat.repr pid) pidFileMode true :: u)
          ++ [Event.removeFile ".nspid"] := by
      cases hcg : c.cgroups with
      | false =>
        rw [execCommand_nocg_net hm hp hs hw hcg]
        obtain ⟨v, hv⟩ := execNet_decomp env c pid
          [Event.processStart pid, Event.writeFile ".nspid" (Nat.repr pid) pidFileMode true]
        exact ⟨v, by rw [hv]; simp⟩
      | true =>
        cases ha : env.cgroupApply with
        | some e =>
          rw [execCommand_cgroup_err hm hp hs hw hcg ha]
          exact ⟨[Event.cgroupApply pid, Event.kill], by simp⟩
        | none =>
          rw [execCommand_cg_net hm hp hs hw hcg ha]
          obtain ⟨v, hv⟩ := execNet_decomp env c pid
            [Event.processStart pid, Event.writeFile ".nspid" (Nat.repr pid) pidFileMode true,
              Event.cgroupApply pid]
          exact ⟨Event.cgroupApply pid :: v, by rw [hv]; simp⟩
    obtain ⟨u, hu⟩ := hdec
    refine ⟨⟨u, hu⟩, ?_⟩
    rw [hu]
    exact pidFilePresent_concat_remove _
  · intro e hw
    rw [execCommand_pidwrite_err hm hp hs hw]
    exact ⟨rfl, by simp⟩

theorem c7_pid_marker_lifecycle_witness :
    (∃ u, (execCommand envOk containerPlain).2 =
      (Event.processStart 42
        :: Event.writeFile ".nspid" (Nat.repr 42) pidFileMode true :: u)
        ++ [Event.removeFile ".nspid"])
    ∧ pidFilePresent (execCommand envOk containerPlain).2 = false :=
  (@c7_pid_marker_lifecycle envOk containerPlain "/dev/pts/5" 42 rfl rfl rfl).1 rfl

/-- C4: a child that terminates normally with exit status N makes the launch
return exit code N and no error (non-zero statuses included); any wait failure
that is not a child exit status is returned as -1 with that error; and every
return that carries an error carries exit code -1, while an error-free return
happens only through a child exit and reports exactly its status. -/
theorem c4_exit_translation (env : Env) (c : Container) :
    (∀ e, (execCommand env c).1.2 = some e → (execCommand env c).1.1 = -1)
    ∧ ((execCommand env c).1.2 = none →
        ∃ n, env.wait = .exited n ∧ (execCommand env c).1.1 = (n : Int))
    ∧ (∀ console pid, createMasterAndConsole env = .ok console → env.stdinPipe = .ok () →
        env.start = .ok pid → env.writePid = none →
        (c.cgroups = true → env.cgroupApply = none) →
        (∀ nc, c.network = some nc →
          ∃ name tn, initializeContainerVeth env nc.bridge pid = (.ok name, tn)) →
        setupWindow env = .ok () →
        (∀ n, env.wait = .exited n → (execCommand env c).1 = ((n : Int), none))
        ∧ (∀ e, env.wait = .waitError e → (execCommand env c).1 = (-1, some e))) := by
  refine ⟨?_, ?_, ?_⟩
  · intro e he
    rcases execCommand_result_cases env c with ⟨e0, hres⟩ | ⟨n, hwn, hres⟩
    · rw [hres]
    · rw [hres] at he
      simp at he
  · intro he
    rcases execCommand_result_cases env c with ⟨e0, hres⟩ | ⟨n, hwn, hres⟩
    · rw [hres] at he
      simp at he
    · exact ⟨n, hwn, by rw [hres]⟩
  · intro console pid hm hp hs hw hcga hnet hsw
    have hENfst : ∀ t,
        (∀ n, env.wait = .exited n → (execNet env c pid t).1 = ((n : Int), none))
        ∧ (∀ e, env.wait = .waitError e → (execNet env c pid t).1 = (-1, some e)) := by
      intro t
      cases hn : c.network with
      | none =>
        constructor
        · intro n hwn
          simp [execNet, hn, execTail, hsw, hwn]
        · intro e hwn
          simp [execNet, hn, execTail, hsw, hwn]
      | some nc =>
        obtain ⟨name, tn, hi⟩ := hnet nc hn
        constructor
        · intro n hwn
          simp only [execNet, hn, hi]
          simp [execTail, hsw, hwn]
        · intro e hwn
          simp only [execNet, hn, hi]
          simp [execTail, hsw, hwn]
    cases hcg : c.cgroups with
    | false =>
      rw [execCommand_nocg_net hm hp hs hw hcg]
      exact hENfst _
    | true =>
      rw [execCommand_cg_net hm hp hs hw hcg (hcga hcg)]
      exact hENfst _

theorem c4_exit_translation_witness :
    (execCommand envExit17 containerPlain).1 = ((17 : Int), none) :=
  ((c4_exit_translation envExit17 containerPlain).2.2 "/dev/pts/5" 42 rfl rfl rfl rfl
    (fun _ => rfl) (fun nc h => by simp [containerPlain] at h) rfl).1 17 rfl

/-- C1 as stated is false on the code: when the bridge-attach network
primitive fails (with every earlier step succeeding), the launch returns the
error but never calls `Process.Kill` on the already-started child. -/
theorem c1_counterexample :
    (execCommand envBridgeFail containerBoth).1 = (-1, some { msg := "bridge attach failed" })
    ∧ Event.kill ∉ (execCommand envBridgeFail containerBoth).2 := by
  constructor
  · decide
  · decide

/-- C1 (amended): setup failures after the child has started kill the child
and return (-1, error) for the pid-marker write, the resource-limit
application, and the terminal attach; but a network-primitive failure returns
(-1, error) without killing the already-started child. -/
theorem c1_amended_kill_policy {env : Env} {c : Container} {console : String} {pid : Nat}
    (hm : createMasterAndConsole env = .ok console) (hp : env.stdinPipe = .ok ())
    (hs : env.start = .ok pid) :
    (∀ e, env.writePid = some e →
      (execCommand env c).1 = (-1, some e) ∧ Event.kill ∈ (execCommand env c).2)
    ∧ (∀ e, env.writePid = none → c.cgroups = true → env.cgroupApply = some e →
        (execCommand env c).1 = (-1, some e) ∧ Event.kill ∈ (execCommand env c).2)
    ∧ (∀ e nc tn, env.writePid = none → (c.cgroups = true → env.cgroupApply = none) →
        c.network = some nc → initializeContainerVeth env nc.bridge pid = (.error e, tn) →
        (execCommand env c).1 = (-1, some e) ∧ Event.kill ∉ (execCommand env c).2)
    ∧ (∀ e, env.writePid = none → (c.cgroups = true → env.cgroupApply = none) →
        (∀ nc, c.network = some nc →
          ∃ name tn, initializeContainerVeth env nc.bridge pid = (.ok name, tn)) →
        setupWindow env = .error e →
        (execCommand env c).1 = (-1, some e) ∧ Event.kill ∈ (execCommand env c).2) := by
  refine ⟨?_, ?_, ?_, ?_⟩
  · intro e hw
    rw [execCommand_pidwrite_err hm hp hs hw]
    exact ⟨rfl, by simp⟩
  · intro e hw hcg ha
    rw [execCommand_cgroup_err hm hp hs hw hcg ha]
    exact ⟨rfl, by simp⟩
  · intro e nc tn hw hcga hn hi
    have hkn : Event.kill ∉ tn := by
      intro hk
      have hmem : Event.kill ∈ (initializeContainerVeth env nc.bridge pid).2 := by
        rw [hi]
        exact hk
      exact (netphase_props (netphase_event hmem)).2.2.2.2.1 rfl
    cases hcg : c.cgroups with
    | false =>
      have hq : execCommand env c = ((-1, some e),
          [Event.processStart pid, Event.writeFile ".nspid" (Nat.repr pid) pidFileMode true]
            ++ tn ++ deletePidFile) := by
        rw [execCommand_nocg_net hm hp hs hw hcg]
        simp [execNet, hn, hi]
      rw [hq]
      refine ⟨rfl, ?_⟩
      simp [deletePidFile, List.mem_append, hkn]
    | true =>
      have hq : execCommand env c = ((-1, some e),
          [Event.processStart pid, Event.writeFile ".nspid" (Nat.repr pid) pidFileMode true,
            Event.cgroupApply pid] ++ tn ++ deletePidFile) := by
        rw [execCommand_cg_net hm hp hs hw hcg (hcga hcg)]
        simp [execNet, hn, hi]
      rw [hq]
      refine ⟨rfl, ?_⟩
      simp [deletePidFile, List.mem_append, hkn]
  · intro e hw hcga hnetok hsw
    have hEN : ∀ t, (execNet env c pid t).1 = (-1, some e)
        ∧ Event.kill ∈ (execNet env c pid t).2 := by
      intro t
      cases hn : c.network with
      | none =>
        constructor <;> simp [execNet, hn, execTail, hsw, deletePidFile]
      | some nc =>
        obtain ⟨name, tn, hi⟩ := hnetok nc hn
        constructor <;> simp [execNet, hn, hi, execTail, hsw, deletePidFile]
    cases hcg : c.cgroups with
    | false =>
      rw [execCommand_nocg_net hm hp hs hw hcg]
      exact hEN _
    | true =>
      rw [execCommand_cg_net hm hp hs hw hcg (hcga hcg)]
      exact hEN _

theorem c1_amended_kill_policy_witness :
    (execCommand envPidFail containerBoth).1 = (-1, some { msg := "pid write failed" })
    ∧ Event.kill ∈ (execCommand envPidFail containerBoth).2 :=
  (@c1_amended_kill_policy envPidFail containerBoth "/dev/pts/5" 42 rfl rfl rfl).1
    { msg := "pid write failed" } rfl

/-- C6 as stated is false on the code: when the network primitives report a
name collision ("file exists") on veth pair creation, no retry happens — the
name generator is invoked exactly twice in the whole launch — and the
collision error is surfaced to the caller as a fatal launch error. -/
theorem c6_counterexample :
    (execCommand envCollide containerNetOnly).1 = (-1, some { msg := "file exists" })
    ∧ (execCommand envCollide containerNetOnly).2.countP isGenerateNameEv = 2 := by
  constructor
  · decide
  · decide

/-- C6 (amended): a name collision reported by the network primitives on veth
pair creation is not retried: each of the two names is generated exactly once,
`createVethPair` returns the collision error, and the launch aborts with
(-1, that error). -/
theorem c6_amended_collision_fatal {env : Env} {e : GoError}
    (h0 : env.genNameErr 0 = none) (h1 : env.genNameErr 1 = none)
    (hcv : env.createVeth (genName1 env) (genName2 env) = some e) :
    createVethPair env = ((genName1 env, genName2 env, some e),
      [Event.generateName "dock" 4, Event.generateName "dock" 4,
        Event.createVethPair (genName1 env) (genName2 env)])
    ∧ (∀ (c : Container) (nc : Network) (console : String) (pid : Nat),
        createMasterAndConsole env = .ok console → env.stdinPipe = .ok () →
        env.start = .ok pid → env.writePid = none →
        (c.cgroups = true → env.cgroupApply = none) → c.network = some nc →
        (execCommand env c).1 = (-1, some e)) := by
  have hcvp : createVethPair env = ((genName1 env, genName2 env, some e),
      [Event.generateName "dock" 4, Event.generateName "dock" 4,
        Event.createVethPair (genName1 env) (genName2 env)]) := by
    rcases createVethPair_cases env with ⟨e0, he0, _⟩ | ⟨e0, he0, he1, _⟩ | ⟨_, _, hq⟩
    · simp [h0] at he0
    · simp [h1] at he1
    · rw [hq, hcv]
  refine ⟨hcvp, ?_⟩
  intro c nc console pid hm hp hs hw hcga hn
  have hi : initializeContainerVeth env nc.bridge pid =
      (.error e, [Event.generateName "dock" 4, Event.generateName "dock" 4,
        Event.createVethPair (genName1 env) (genName2 env)]) := by
    simp [initializeContainerVeth, hcvp]
  cases hcg : c.cgroups with
  | false =>
    rw [execCommand_nocg_net hm hp hs hw hcg]
    simp [execNet, hn, hi]
  | true =>
    rw [execCommand_cg_net hm hp hs hw hcg (hcga hcg)]
    simp [execNet, hn, hi]

theorem c6_amended_collision_fatal_witness :
    createVethPair envCollide =
      (("dockaaaa", "dockbbbb", some { msg := "file exists" }),
        [Event.generateName "dock" 4, Event.generateName "dock" 4,
          Event.createVethPair "dockaaaa" "dockbbbb"])
    ∧ (execCommand envCollide containerNetOnly).1 = (-1, some { msg := "file exists" }) := by
  have h := @c6_amended_collision_fatal envCollide { msg := "file exists" } rfl rfl rfl
  exact ⟨h.1, h.2 containerNetOnly { bridge := "docker0" } "/dev/pts/5" 42 rfl rfl rfl rfl
    (fun _ => rfl) rfl⟩

/-- C10: the two names of one veth pair are independent draws of the same
scheme ("dock" plus a 4-character random suffix) with no distinctness check:
in the random outcome where both draws return suffix "abcd", host side and
container side get the equal name "dockabcd" and pair creation is still
attempted with the two equal names. -/
theorem c10_equal_names_possible :
    createVethPair envSameSuffix =
      (("dockabcd", "dockabcd", none),
        [Event.generateName "dock" 4, Event.generateName "dock" 4,
          Event.createVethPair "dockabcd" "dockabcd"])
    ∧ genName1 envSameSuffix = genName2 envSameSuffix := by
  constructor
  · decide
  · decide

theorem execNet_pipe_cases (env : Env) (c : Container) (pid : Nat) (t : List Event) :
    (∃ s, (execNet env c pid t).2 = t ++ s
      ∧ ∀ e ∈ s, isPipeWriteEv e = false ∧ isPipeCloseEv e = false)
  ∨ (∃ s1 name s2, (execNet env c pid t).2
        = t ++ s1 ++ [Event.pipeWrite name env.pipeWriteOk, Event.pipeClose] ++ s2
      ∧ (∀ e ∈ s1, isPipeWriteEv e = false ∧ isPipeCloseEv e = false)
      ∧ (∀ e ∈ s2, isPipeWriteEv e = false ∧ isPipeCloseEv e = false))
  ∨ (c.network = none ∧ (∃ s2, (execNet env c pid t).2 = t ++ [Event.pipeClose] ++ s2
      ∧ ∀ e ∈ s2, isPipeWriteEv e = false ∧ isPipeCloseEv e = false)) := by
  cases hn : c.network with
  | none =>
    refine Or.inr (Or.inr ⟨rfl, ?_⟩)
    rcases execTail_cases env (t ++ [Event.pipeClose]) with ⟨e, hsw, hq⟩ | ⟨e, hsw, hw, hq⟩ |
      ⟨n, hsw, hw, hq⟩
    · refine ⟨[Event.setupWindow, Event.kill, Event.removeFile ".nspid"],
        by simp only [execNet, hn]; rw [hq], ?_⟩
      intro e he
      simp only [List.mem_cons, List.not_mem_nil, or_false] at he
      rcases he with rfl | rfl | rfl <;> exact ⟨rfl, rfl⟩
    · refine ⟨[Event.setupWindow, Event.wait, Event.restoreTerminal, Event.removeFile ".nspid"],
        by simp only [execNet, hn]; rw [hq], ?_⟩
      intro e he
      simp only [List.mem_cons, List.not_mem_nil, or_false] at he
      rcases he with rfl | rfl | rfl | rfl <;> exact ⟨rfl, rfl⟩
    · refine ⟨[Event.setupWindow, Event.wait, Event.restoreTerminal, Event.removeFile ".nspid"],
        by simp only [execNet, hn]; rw [hq], ?_⟩
      intro e he
      simp only [List.mem_cons, List.not_mem_nil, or_false] at he
      rcases he with rfl | rfl | rfl | rfl <;> exact ⟨rfl, rfl⟩
  | some nc =>
    rcases hi : initializeContainerVeth env nc.bridge pid with ⟨res, tn⟩
    have htn : ∀ e ∈ tn, isPipeWriteEv e = false ∧ isPipeCloseEv e = false := by
      intro e he
      have hmem : e ∈ (initializeContainerVeth env nc.bridge pid).2 := by rw [hi]; exact he
      have hpr := netphase_props (netphase_event hmem)
      exact ⟨hpr.2.1, hpr.2.2.1⟩
    cases res with
    | error e0 =>
      refine Or.inl ⟨tn ++ [Event.removeFile ".nspid"],
        by simp [execNet, hn, hi, deletePidFile], ?_⟩
      intro e he
      rcases List.mem_append.mp he with h | h
      · exact htn e h
      · simp only [List.mem_cons, List.not_mem_nil, or_false] at h
        subst h
        exact ⟨rfl, rfl⟩
    | ok name =>
      refine Or.inr (Or.inl ⟨tn, name, ?_⟩)
      rcases execTail_cases env (t ++ tn ++ sendVethName env name ++ [Event.pipeClose]) with
        ⟨e, hsw, hq⟩ | ⟨e, hsw, hw, hq⟩ | ⟨n, hsw, hw, hq⟩
      · refine ⟨[Event.setupWindow, Event.kill, Event.removeFile ".nspid"],
          by simp only [execNet, hn, hi]; rw [hq]; simp [sendVethName], htn, ?_⟩
        intro e he
        simp only [List.mem_cons, List.not_mem_nil, or_false] at he
        rcases he with rfl | rfl | rfl <;> exact ⟨rfl, rfl⟩
      · refine ⟨[Event.setupWindow, Event.wait, Event.restoreTerminal, Event.removeFile ".nspid"],
          by simp only [execNet, hn, hi]; rw [hq]; simp [sendVethName], htn, ?_⟩
        intro e he
        simp only [List.mem_cons, List.not_mem_nil, or_false] at he
        rcases he with rfl | rfl | rfl | rfl <;> exact ⟨rfl, rfl⟩
      · refine ⟨[Event.setupWindow, Event.wait, Event.restoreTerminal, Event.removeFile ".nspid"],
          by simp only [execNet, hn, hi]; rw [hq]; simp [sendVethName], htn, ?_⟩
        intro e he
        simp only [List.mem_cons, List.not_mem_nil, or_false] at he
        rcases he with rfl | rfl | rfl | rfl <;> exact ⟨rfl, rfl⟩

theorem pipe_discipline_execNet {env : Env} {c : Container} {pid : Nat} {t : List Event}
    (h0 : ∀ e ∈ t, isPipeWriteEv e = false ∧ isPipeCloseEv e = false) :
    (execNet env c pid t).2.countP isPipeCloseEv ≤ 1
    ∧ allBefore isPipeWriteEv isPipeCloseEv (execNet env c pid t).2 = true
    ∧ (∀ nc, c.network = some nc → Event.pipeClose ∈ (execNet env c pid t).2 →
        ∃ s b, Event.pipeWrite s b ∈ (execNet env c pid t).2) := by
  rcases execNet_pipe_cases env c pid t with ⟨s, hs, hpure⟩ |
    ⟨s1, name, s2, hs, hp1, hp2⟩ | ⟨hn, s2, hs, hp2⟩
  · have ht0 : t.countP isPipeCloseEv = 0 :=
      List.countP_eq_zero.mpr fun e he => by simp [(h0 e he).2]
    have hs0 : s.countP isPipeCloseEv = 0 :=
      List.countP_eq_zero.mpr fun e he => by simp [(hpure e he).2]
    refine ⟨by rw [hs]; simp [List.countP_append, ht0, hs0], ?_, ?_⟩
    · rw [hs]
      apply allBefore_of_no_q
      intro e he
      rcases List.mem_append.mp he with h | h
      · exact (h0 e h).2
      · exact (hpure e h).2
    · intro nc hnc hcl
      rw [hs] at hcl
      rcases List.mem_append.mp hcl with h | h
      · have hfalse := (h0 _ h).2
        simp [isPipeCloseEv] at hfalse
      · have hfalse := (hpure _ h).2
        simp [isPipeCloseEv] at hfalse
  · have ht0 : t.countP isPipeCloseEv = 0 :=
      List.countP_eq_zero.mpr fun e he => by simp [(h0 e he).2]
    have hs1c : s1.countP isPipeCloseEv = 0 :=
      List.countP_eq_zero.mpr fun e he => by simp [(hp1 e he).2]
    have hs2c : s2.countP isPipeCloseEv = 0 :=
      List.countP_eq_zero.mpr fun e he => by simp [(hp2 e he).2]
    refine ⟨?_, ?_, ?_⟩
    · rw [hs]
      simp [List.countP_append, List.countP_cons, ht0, hs1c, hs2c, isPipeCloseEv]
    · have hassoc : t ++ s1 ++ [Event.pipeWrite name env.pipeWriteOk, Event.pipeClose] ++ s2
          = (t ++ s1 ++ [Event.pipeWrite name env.pipeWriteOk])
            ++ (Event.pipeClose :: s2) := by simp
      rw [hs, hassoc]
      apply allBefore_split
      · intro e he
        rcases List.mem_append.mp he with h | h
        · rcases List.mem_append.mp h with h2 | h2
          · exact (h0 e h2).2
          · exact (hp1 e h2).2
        · simp only [List.mem_cons, List.not_mem_nil, or_false] at h
          subst h
          rfl
      · intro e he
        rcases List.mem_cons.mp he with rfl | h
        · rfl
        · exact (hp2 e h).1
    · intro nc hnc hcl
      exact ⟨name, env.pipeWriteOk, by rw [hs]; simp⟩
  · have ht0 : t.countP isPipeCloseEv = 0 :=
      List.countP_eq_zero.mpr fun e he => by simp [(h0 e he).2]
    have hs2c : s2.countP isPipeCloseEv = 0 :=
      List.countP_eq_zero.mpr fun e he => by simp [(hp2 e he).2]
    refine ⟨?_, ?_, ?_⟩
    · rw [hs]
      simp [List.countP_append, List.countP_cons, ht0, hs2c, isPipeCloseEv]
    · rw [hs]
      apply allBefore_of_no_p
      intro e he
      rcases List.mem_append.mp he with h | h
      · rcases List.mem_append.mp h with h2 | h2
        · exact (h0 e h2).1
        · simp only [List.mem_cons, List.not_mem_nil, or_false] at h2
          subst h2
          rfl
      · exact (hp2 e h).1
    · intro nc hnc hcl
      rw [hn] at hnc
      cases hnc

/-- C3: in every execution the control channel is closed at most once, every
write to it occurs strictly before every close (hence no write after a close),
and when networking is configured a close is always preceded by an
interface-name write. -/
theorem c3_control_channel_discipline (env : Env) (c : Container) :
    (execCommand env c).2.countP isPipeCloseEv ≤ 1
    ∧ allBefore isPipeWriteEv isPipeCloseEv (execCommand env c).2 = true
    ∧ (∀ nc, c.network = some nc → Event.pipeClose ∈ (execCommand env c).2 →
        ∃ s b, Event.pipeWrite s b ∈ (execCommand env c).2) := by
  cases hm : createMasterAndConsole env with
  | error e =>
    rw [execCommand_console_err hm]
    exact ⟨by simp, rfl, by simp⟩
  | ok console =>
    cases hp : env.stdinPipe with
    | error e =>
      rw [execCommand_pipe_err hm hp]
      exact ⟨by simp, rfl, by simp⟩
    | ok u =>
      cases u
      cases hs : env.start with
      | error e =>
        rw [execCommand_start_err hm hp hs]
        exact ⟨by simp, rfl, by simp⟩
      | ok pid =>
        cases hw : env.writePid with
        | some e =>
          rw [execCommand_pidwrite_err hm hp hs hw]
          refine ⟨by simp [List.countP_cons, isPipeCloseEv], ?_, ?_⟩
          · apply allBefore_of_no_q
            intro x hx
            simp only [List.mem_cons, List.not_mem_nil, or_false] at hx
            rcases hx with rfl | rfl | rfl <;> rfl
          · intro nc hnc hcl
            simp at hcl
        | none =>
          have hpre2 : ∀ e ∈ [Event.processStart pid,
              Event.writeFile ".nspid" (Nat.repr pid) pidFileMode true],
              isPipeWriteEv e = false ∧ isPipeCloseEv e = false := by
            intro e he
            simp only [List.mem_cons, List.not_mem_nil, or_false] at he
            rcases he with rfl | rfl <;> exact ⟨rfl, rfl⟩
          have hpre3 : ∀ e ∈ [Event.processStart pid,
              Event.writeFile ".nspid" (Nat.repr pid) pidFileMode true, Event.cgroupApply pid],
              isPipeWriteEv e = false ∧ isPipeCloseEv e = false := by
            intro e he
            simp only [List.mem_cons, List.not_mem_nil, or_false] at he
            rcases he with rfl | rfl | rfl <;> exact ⟨rfl, rfl⟩
          cases hcg : c.cgroups with
          | false =>
            rw [execCommand_nocg_net hm hp hs hw hcg]
            exact pipe_discipline_execNet hpre2
          | true =>
            cases ha : env.cgroupApply with
            | some e =>
              rw [execCommand_cgroup_err hm hp hs hw hcg ha]
              refine ⟨by simp [List.countP_cons, isPipeCloseEv], ?_, ?_⟩
              · apply allBefore_of_no_q
                intro x hx
                simp only [List.mem_cons, List.not_mem_nil, or_false] at hx
                rcases hx with rfl | rfl | rfl | rfl | rfl <;> rfl
              · intro nc hnc hcl
                simp at hcl
            | none =>
              rw [execCommand_cg_net hm hp hs hw hcg ha]
              exact pipe_discipline_execNet hpre3

theorem c3_control_channel_discipline_witness :
    ∃ s b, Event.pipeWrite s b ∈ (execCommand envOk containerBoth).2 :=
  (c3_control_channel_discipline envOk containerBoth).2.2 { bridge := "docker0" } rfl (by decide)

/-- C8: with the two names generated, the network bootstrap performs exactly
the order veth-pair creation, bridge attach of the host side, host side up,
namespace migration of the container side; a failing step aborts with that
step's error and no later step runs (the trace stops at the failing call);
after full success the container-side name is written into the control channel
directly after the namespace migration, followed by the channel close. -/
theorem c8_network_bootstrap_order {env : Env} {bridge : String} {pid : Nat}
    (h0 : env.genNameErr 0 = none) (h1 : env.genNameErr 1 = none) :
    (∀ e, env.createVeth (genName1 env) (genName2 env) = some e →
      initializeContainerVeth env bridge pid = (.error e,
        [Event.generateName "dock" 4, Event.generateName "dock" 4,
          Event.createVethPair (genName1 env) (genName2 env)]))
    ∧ (env.createVeth (genName1 env) (genName2 env) = none →
        (∀ e, env.setMaster (genName1 env) bridge = some e →
          initializeContainerVeth env bridge pid = (.error e,
            [Event.generateName "dock" 4, Event.generateName "dock" 4,
              Event.createVethPair (genName1 env) (genName2 env),
              Event.setInterfaceMaster (genName1 env) bridge]))
        ∧ (env.setMaster (genName1 env) bridge = none →
            (∀ e, env.ifaceUp (genName1 env) = some e →
              initializeContainerVeth env bridge pid = (.error e,
                [Event.generateName "dock" 4, Event.generateName "dock" 4,
                  Event.createVethPair (genName1 env) (genName2 env),
                  Event.setInterfaceMaster (genName1 env) bridge,
                  Event.interfaceUp (genName1 env)]))
            ∧ (env.ifaceUp (genName1 env) = none →
                (∀ e, env.setNsPid (genName2 env) pid = some e →
                  initializeContainerVeth env bridge pid = (.error e,
                    [Event.generateName "dock" 4, Event.generateName "dock" 4,
                      Event.createVethPair (genName1 env) (genName2 env),
                      Event.setInterfaceMaster (genName1 env) bridge,
                      Event.interfaceUp (genName1 env),
                      Event.setInterfaceInNamespacePid (genName2 env) pid]))
                ∧ (env.setNsPid (genName2 env) pid = none →
                    initializeContainerVeth env bridge pid = (.ok (genName2 env),
                      [Event.generateName "dock" 4, Event.generateName "dock" 4,
                        Event.createVethPair (genName1 env) (genName2 env),
                        Event.setInterfaceMaster (genName1 env) bridge,
                        Event.interfaceUp (genName1 env),
                        Event.setInterfaceInNamespacePid (genName2 env) pid])))))
    ∧ (∀ (c : Container) (nc : Network) (console : String),
        createMasterAndConsole env = .ok console → env.stdinPipe = .ok () →
        env.start = .ok pid → env.writePid = none →
        (c.cgroups = true → env.cgroupApply = none) → c.network = some nc →
        env.createVeth (genName1 env) (genName2 env) = none →
        env.setMaster (genName1 env) nc.bridge = none →
        env.ifaceUp (genName1 env) = none →
        env.setNsPid (genName2 env) pid = none →
        ∃ t1 s, (execCommand env c).2 = t1
          ++ [Event.setInterfaceInNamespacePid (genName2 env) pid,
              Event.pipeWrite (genName2 env) env.pipeWriteOk, Event.pipeClose] ++ s) := by
  have hcvp0 : createVethPair env =
      ((genName1 env, genName2 env, env.createVeth (genName1 env) (genName2 env)),
        [Event.generateName "dock" 4, Event.generateName "dock" 4,
          Event.createVethPair (genName1 env) (genName2 env)]) := by
    rcases createVethPair_cases env with ⟨e0, he0, _⟩ | ⟨e0, he0, he1, _⟩ | ⟨_, _, hq⟩
    · simp [h0] at he0
    · simp [h1] at he1
    · exact hq
  refine ⟨?_, ?_, ?_⟩
  · intro e hcv
    simp [initializeContainerVeth, hcvp0, hcv]
  · intro hcv
    refine ⟨?_, ?_⟩
    · intro e hsm
      simp [initializeContainerVeth, hcvp0, hcv, hsm]
    · intro hsm
      refine ⟨?_, ?_⟩
      · intro e hup
        simp [initializeContainerVeth, hcvp0, hcv, hsm, hup]
      · intro hup
        refine ⟨?_, ?_⟩
        · intro e hns
          simp [initializeContainerVeth, hcvp0, hcv, hsm, hup, hns]
        · intro hns
          simp [initializeContainerVeth, hcvp0, hcv, hsm, hup, hns]
  · intro c nc console hm hp hs hw hcga hn hcv hsm hup hns
    have hi : initializeContainerVeth env nc.bridge pid = (.ok (genName2 env),
        [Event.generateName "dock" 4, Event.generateName "dock" 4,
          Event.createVethPair (genName1 env) (genName2 env),
          Event.setInterfaceMaster (genName1 env) nc.bridge,
          Event.interfaceUp (genName1 env),
          Event.setInterfaceInNamespacePid (genName2 env) pid]) := by
      simp [initializeContainerVeth, hcvp0, hcv, hsm, hup, hns]
    have hEN : ∀ t0, ∃ t1 s, (execNet env c pid t0).2 = t1
        ++ [Event.setInterfaceInNamespacePid (genName2 env) pid,
            Event.pipeWrite (genName2 env) env.pipeWriteOk, Event.pipeClose] ++ s := by
      intro t0
      rcases execTail_cases env (t0
          ++ [Event.generateName "dock" 4, Event.generateName "dock" 4,
              Event.createVethPair (genName1 env) (genName2 env),
              Event.setInterfaceMaster (genName1 env) nc.bridge,
              Event.interfaceUp (genName1 env),
              Event.setInterfaceInNamespacePid (genName2 env) pid]
          ++ sendVethName env (genName2 env) ++ [Event.pipeClose]) with
        ⟨e, hsw, hq⟩ | ⟨e, hsw, hwt, hq⟩ | ⟨n, hsw, hwt, hq⟩
      · refine ⟨t0 ++ [Event.generateName "dock" 4, Event.generateName "dock" 4,
          Event.createVethPair (genName1 env) (genName2 env),
          Event.setInterfaceMaster (genName1 env) nc.bridge,
          Event.interfaceUp (genName1 env)],
          [Event.setupWindow, Event.kill, Event.removeFile ".nspid"], ?_⟩
        simp only [execNet, hn, hi]
        rw [hq]
        simp [sendVethName]
      · refine ⟨t0 ++ [Event.generateName "dock" 4, Event.generateName "dock" 4,
          Event.createVethPair (genName1 env) (genName2 env),
          Event.setInterfaceMaster (genName1 env) nc.bridge,
          Event.interfaceUp (genName1 env)],
          [Event.setupWindow, Event.wait, Event.restoreTerminal, Event.removeFile ".nspid"], ?_⟩
        simp only [execNet, hn, hi]
        rw [hq]
        simp [sendVethName]
      · refine ⟨t0 ++ [Event.generateName "dock" 4, Event.generateName "dock" 4,
          Event.createVethPair (genName1 env) (genName2 env),
          Event.setInterfaceMaster (genName1 env) nc.bridge,
          Event.interfaceUp (genName1 env)],
          [Event.setupWindow, Event.wait, Event.restoreTerminal, Event.removeFile ".nspid"], ?_⟩
        simp only [execNet, hn, hi]
        rw [hq]
        simp [sendVethName]
    cases hcg : c.cgroups with
    | false =>
      rw [execCommand_nocg_net hm hp hs hw hcg]
      exact hEN _
    | true =>
      rw [execCommand_cg_net hm hp hs hw hcg (hcga hcg)]
      exact hEN _

theorem c8_network_bootstrap_order_witness :
    ∃ t1 s, (execCommand envOk containerBoth).2 = t1
      ++ [Event.setInterfaceInNamespacePid (genName2 envOk) 42,
          Event.pipeWrite (genName2 envOk) envOk.pipeWriteOk, Event.pipeClose] ++ s :=
  (@c8_network_bootstrap_order envOk "docker0" 42 rfl rfl).2.2
    containerBoth { bridge := "docker0" } "/dev/pts/5" rfl rfl rfl rfl (fun _ => rfl) rfl
    rfl rfl rfl rfl

theorem execTail_fst_eq (env : Env) (t1 t2 : List Event) :
    (execTail env t1).1 = (execTail env t2).1 := by
  cases hsw : setupWindow env with
  | error e => simp [execTail, hsw]
  | ok u =>
    cases u
    cases hwt : env.wait <;> simp [execTail, hsw, hwt]

theorem execTail_snd_decomp (env : Env) (t : List Event) :
    (execTail env t).2 = t ++ (execTail env []).2 := by
  cases hsw : setupWindow env with
  | error e => simp [execTail, hsw]
  | ok u =>
    cases u
    cases hwt : env.wait <;> simp [execTail, hsw, hwt]

theorem execTail_pipeWriteOk (env : Env) (b : Bool) (t : List Event) :
    execTail { env with pipeWriteOk := b } t = execTail env t := by
  cases h : setupWindow env with
  | error e =>
    have hb : setupWindow { env with pipeWriteOk := b } = .error e := h
    simp [execTail, h, hb]
  | ok u =>
    cases u
    cases hwt : env.wait with
    | exited n =>
      have hb : setupWindow { env with pipeWriteOk := b, wait := WaitOutcome.exited n }
          = .ok () := h
      simp [execTail, h, hwt, hb]
    | waitError e =>
      have hb : setupWindow { env with pipeWriteOk := b, wait := WaitOutcome.waitError e }
          = .ok () := h
      simp [execTail, h, hwt, hb]

theorem execNet_scrub (env : Env) (c : Container) (pid : Nat) (t : List Event) (b : Bool) :
    (execNet { env with pipeWriteOk := b } c pid t).1 = (execNet env c pid t).1
    ∧ (execNet { env with pipeWriteOk := b } c pid t).2.map scrubWriteFlag
      = (execNet env c pid t).2.map scrubWriteFlag := by
  cases hn : c.network with
  | none =>
    constructor <;> simp only [execNet, hn, execTail_pipeWriteOk]
  | some nc =>
    rcases hi : initializeContainerVeth env nc.bridge pid with ⟨res, tn⟩
    have hib : initializeContainerVeth { env with pipeWriteOk := b } nc.bridge pid =
        (res, tn) := hi
    cases res with
    | error e =>
      constructor <;> simp only [execNet, hn, hi, hib]
    | ok name =>
      constructor
      · simp only [execNet, hn, hi, hib, execTail_pipeWriteOk]
        exact execTail_fst_eq env _ _
      · simp only [execNet, hn, hi, hib, execTail_pipeWriteOk]
        rw [execTail_snd_decomp env
            (t ++ tn ++ sendVethName { env with pipeWriteOk := b } name ++ [Event.pipeClose]),
          execTail_snd_decomp env
            (t ++ tn ++ sendVethName env name ++ [Event.pipeClose])]
        simp [sendVethName, scrubWriteFlag]

/-- C9: the error result of the handshake write on the control channel is
discarded: the launch's result and its trace (up to the success flag recorded
at the write event itself) are identical whether the underlying write succeeds
or fails, so no error of that write ever reaches the caller. -/
theorem c9_handshake_write_error_ignored (env : Env) (c : Container) (b : Bool) :
    (execCommand { env with pipeWriteOk := b } c).1 = (execCommand env c).1
    ∧ (execCommand { env with pipeWriteOk := b } c).2.map scrubWriteFlag
      = (execCommand env c).2.map scrubWriteFlag := by
  obtain ⟨o, pn, ul, sp, st, wp, ca, rs, ge, cv, sm, iu, pw, sn, gw, swz, srt, wt⟩ := env
  obtain ⟨cg, nw⟩ := c
  cases o with
  | error e => exact ⟨rfl, rfl⟩
  | ok u1 =>
    cases pn with
    | error e => exact ⟨rfl, rfl⟩
    | ok console =>
      cases ul with
      | some e => exact ⟨rfl, rfl⟩
      | none =>
        cases sp with
        | error e => exact ⟨rfl, rfl⟩
        | ok u2 =>
          cases st with
          | error e => exact ⟨rfl, rfl⟩
          | ok pid =>
            cases wp with
            | some e => exact ⟨rfl, rfl⟩
            | none =>
              cases cg with
              | false =>
                exact execNet_scrub
                  ⟨.ok u1, .ok console, none, .ok u2, .ok pid, none, ca, rs, ge, cv, sm, iu,
                    pw, sn, gw, swz, srt, wt⟩ ⟨false, nw⟩ pid _ b
              | true =>
                cases ca with
                | some e => exact ⟨rfl, rfl⟩
                | none =>
                  exact execNet_scrub
                    ⟨.ok u1, .ok console, none, .ok u2, .ok pid, none, none, rs, ge, cv, sm, iu,
                      pw, sn, gw, swz, srt, wt⟩ ⟨true, nw⟩ pid _ b

end Nsinit
